import Mathlib

/-!
Shallow embedding of the ai-cv-evaluator-frontend client.

The repository has two source files:

* `src/src/app/evaluation/page.tsx` — the evaluation dashboard: the HTTP
  helper `fetchJSON` (with its 404-as-retryable special case), the upload
  and evaluate actions, and the polling loop `pollResult`;
* `src/unnamed/part_000` — the login page, carrying its own copy of
  `fetchJSON` without the 404 special case.

Modelling conventions.  JavaScript exceptions are modelled as
`Except String`: the TypeScript code only ever throws `Error(msg)` and
discriminates on `err.message`, so a thrown error is exactly its message
string.  Floating-point progress values and random increments are modelled
over `ℚ`; a call to `Math.random()` is an arbitrary rational `rand` with
`0 ≤ rand < 1`.  Timestamps are milliseconds as `Nat`, and `elapsed`
stands for the value of `Date.now() - startTime` at the end-of-tick
timeout check.
-/

/-- JSON values as produced by `JSON.parse`. -/
inductive Json where
  | null : Json
  | bool (b : Bool) : Json
  | num (q : ℚ) : Json
  | str (s : String) : Json
  | arr (elems : List Json) : Json
  | obj (fields : List (String × Json)) : Json

/-- The JS access `data?.error` as it is used in
`Error(data?.error || ...)`: the `error` field of an object when that
field is a string.  The backend contract and every claim only involve a
string-valued or absent `error` field, so a non-string value is treated as
absent. -/
def Json.errField : Json → Option String
  | .obj fields =>
    match List.lookup "error" fields with
    | some (.str s) => some s
    | _ => none
  | _ => none

/-- JS truthiness fallback `a || b` where `a` is an optional string:
`undefined` and the empty string are falsy. -/
def jsOr (a : Option String) (b : String) : String :=
  match a with
  | some s => if s = "" then b else s
  | none => b

/-- JS truthiness fallback `a || b` for plain strings, as in
`res.statusText || "Request failed"`. -/
def jsOrS (a b : String) : String := if a = "" then b else a

/-- The observable part of a `fetch` `Response`: the HTTP status code, the
status text, and the body read as text. -/
structure HttpResponse where
  status : Nat
  statusText : String
  body : String

/-- `Response.ok`: true exactly when the status is in the range 200-299. -/
def HttpResponse.ok (r : HttpResponse) : Bool :=
  decide (200 ≤ r.status ∧ r.status ≤ 299)

/-- `let data: any = {}; try { data = text ? JSON.parse(text) : {}; }
catch {}`: an empty body or a body that `JSON.parse` rejects yields the
empty object, and the parse step never throws.  The function `parse`
stands for `JSON.parse`, with `none` modelling the exception it may
throw. -/
def tryParseBody (parse : String → Option Json) (text : String) : Json :=
  if text = "" then Json.obj []
  else
    match parse text with
    | some j => j
    | none => Json.obj []

/-- `fetchJSON` of the evaluation page
(src/src/app/evaluation/page.tsx, lines 41-49): a 404 status throws
`Error("404")` before the body is read; otherwise the body is parsed
defensively and a non-ok response throws
`Error(data?.error || res.statusText || "Request failed")`; an ok
response returns the parsed body. -/
def fetchJSON (parse : String → Option Json) (r : HttpResponse) : Except String Json :=
  if r.status = 404 then Except.error "404"
  else
    let data := tryParseBody parse r.body
    if r.ok then Except.ok data
    else Except.error (jsOr data.errField (jsOrS r.statusText "Request failed"))

/-- `fetchJSON` of the login page (src/unnamed/part_000, lines 28-35): the
same defensive parse and generic failure, with no 404 special case. -/
def loginFetchJSON (parse : String → Option Json) (r : HttpResponse) : Except String Json :=
  let data := tryParseBody parse r.body
  if r.ok then Except.ok data
  else Except.error (jsOr data.errField (jsOrS r.statusText "Request failed"))

/-- The `result` payload of a completed evaluation
(`ResultResponse["result"]` in the source).  Scores are modelled over
`ℚ`. -/
structure EvalResult where
  cv_match_rate : ℚ
  cv_feedback : String
  project_score : ℚ
  project_feedback : String
  overall_summary : String
deriving DecidableEq

/-- The decoded body of a poll response (`ResultResponse` in the source).
The `as T` cast performs no validation, so `status` is an arbitrary
string and `result` and `error` may be absent. -/
structure ResultResponse where
  id : String
  status : String
  result : Option EvalResult
  error : Option String
deriving DecidableEq

/-- Outcome of one poll tick's request: `ok` when `fetchJSON` resolves
with a decoded body, `err` when it throws, carrying the error message. -/
inductive TickOutcome where
  | ok (res : ResultResponse)
  | err (msg : String)

/-- The React state touched by the polling loop, together with the loop's
local `progressValue` accumulator and whether its interval timer is still
scheduled.  `error = ""` means no error is displayed. -/
structure PollState where
  status : String
  result : Option EvalResult
  error : String
  progress : ℚ
  progressValue : ℚ
  timerActive : Bool

/-- `maxWait = 90000`: the 90-second polling timeout in milliseconds. -/
def maxWait : Nat := 90000

/-- The message recorded when the timeout fires. -/
def timeoutMessage : String := "Evaluation timed out. Please try again later."

/-- The default message for a `failed` status without a usable server
message. -/
def defaultFailMessage : String := "Evaluation failed"

/-- One execution of the `setInterval` callback body of `pollResult`
(src/src/app/evaluation/page.tsx, lines 136-173), given the outcome of
this tick's request, the value drawn by `Math.random()`, and the elapsed
time `Date.now() - startTime` in milliseconds at the end-of-tick timeout
check:

* a decoded body first runs `setStatus(res.status)` and then classifies:
  `completed` attaches `res.result`, forces progress to 100 and clears
  the interval; `failed` records `res.error || "Evaluation failed"` and
  clears the interval; any other status advances `progressValue` by
  `rand * 8` capped at 95 and mirrors it into `progress`;
* a thrown `"404"` advances `progressValue` by `rand * 5` capped at 85
  and mirrors it into `progress`; any other thrown message is recorded
  and the interval cleared;
* afterwards, whenever `elapsed` exceeds `maxWait`, the timeout message
  is recorded and the interval cleared, regardless of the branch taken
  above. -/
def pollTick (st : PollState) (outcome : TickOutcome) (rand : ℚ) (elapsed : Nat) : PollState :=
  let st1 :=
    match outcome with
    | .ok res =>
      let stS := { st with status := res.status }
      if res.status = "completed" then
        { stS with result := res.result, progress := 100, timerActive := false }
      else if res.status = "failed" then
        { stS with error := jsOr res.error defaultFailMessage, timerActive := false }
      else
        let pv := min (st.progressValue + rand * 8) 95
        { stS with progressValue := pv, progress := pv }
    | .err msg =>
      if msg = "404" then
        let pv := min (st.progressValue + rand * 5) 85
        { st with progressValue := pv, progress := pv }
      else
        { st with error := msg, timerActive := false }
  if maxWait < elapsed then { st1 with error := timeoutMessage, timerActive := false }
  else st1

/-- The state in which a fresh polling loop starts: `handleEvaluate` has
just run `setError("")`, `setStatus("queued")`, `setResult(null)` and
`setProgress(0)`, and `pollResult` initialises `progressValue = 0` and
schedules its interval. -/
def startPollState : PollState :=
  { status := "queued", result := none, error := "", progress := 0,
    progressValue := 0, timerActive := true }

/-- Run a sequence of ticks, each given as request outcome, random draw
and elapsed time.  A tick's body executes only while the interval is
still scheduled: after `clearInterval` the callback no longer fires. -/
def runPoll : PollState → List (TickOutcome × ℚ × Nat) → PollState
  | st, [] => st
  | st, t :: ts => runPoll (if st.timerActive then pollTick st t.1 t.2.1 t.2.2 else st) ts

/-- The body of a successful `POST /evaluate` response. -/
structure EvaluateResponse where
  id : String
  status : String

/-- The body of a successful `POST /upload` response. -/
structure UploadResponse where
  cv_file_id : String
  project_file_id : String

/-- Page-level React state of the evaluation component, with
`activeTimers` counting how many `pollResult` intervals are currently
scheduled. -/
structure AppState where
  cvId : String
  projectId : String
  status : String
  result : Option EvalResult
  error : String
  progress : ℚ
  activeTimers : Nat

/-- The component's `useState` initialisers: empty file handles, no
result, no error, zero progress, and no scheduled timer. -/
def initialAppState : AppState :=
  { cvId := "", projectId := "", status := "idle", result := none, error := "",
    progress := 0, activeTimers := 0 }

/-- `handleEvaluate` (src/src/app/evaluation/page.tsx, lines 103-129):
resets error, status, result and progress, then on a successful
`POST /evaluate` calls `pollResult(res.id)` — which schedules a fresh
interval and never cancels an already-running one — and on a thrown
error records the message; the whole body sits inside `try/catch`, so the
function itself never throws. -/
def handleEvaluate (s : AppState) (resp : Except String EvaluateResponse) : AppState :=
  let s0 := { s with error := "", status := "queued", result := none, progress := 0 }
  match resp with
  | .ok _ => { s0 with activeTimers := s0.activeTimers + 1 }
  | .error msg => { s0 with error := msg }

/-- `handleUpload` (src/src/app/evaluation/page.tsx, lines 83-101): with a
file missing it records a validation message and returns without any
network call; otherwise it performs the upload with no `try/catch`, so a
thrown request error (modelled as `Except.error`) escapes the handler
uncaught, while a success stores the two file handles. -/
def handleUpload (s : AppState) (cvSelected projectSelected : Bool)
    (resp : Except String UploadResponse) : Except String AppState :=
  if !cvSelected || !projectSelected then
    Except.ok { s with error := "Select both CV and Project files" }
  else
    match resp with
    | .ok u => Except.ok { s with error := "", cvId := u.cv_file_id, projectId := u.project_file_id }
    | .error msg => Except.error msg

/-- A `processing` poll body with no result and no error field. -/
def procResp : ResultResponse :=
  { id := "job-1", status := "processing", result := none, error := none }

/-- Thirteen in-progress ticks at the 2.5-second cadence, each drawing
`Math.random() = 7/8` (a progress increment of 7), all well inside the
90-second window. -/
def c1Trace : List (TickOutcome × ℚ × Nat) :=
  [(TickOutcome.ok procResp, (7 : ℚ)/8, 2500), (TickOutcome.ok procResp, (7 : ℚ)/8, 5000),
   (TickOutcome.ok procResp, (7 : ℚ)/8, 7500), (TickOutcome.ok procResp, (7 : ℚ)/8, 10000),
   (TickOutcome.ok procResp, (7 : ℚ)/8, 12500), (TickOutcome.ok procResp, (7 : ℚ)/8, 15000),
   (TickOutcome.ok procResp, (7 : ℚ)/8, 17500), (TickOutcome.ok procResp, (7 : ℚ)/8, 20000),
   (TickOutcome.ok procResp, (7 : ℚ)/8, 22500), (TickOutcome.ok procResp, (7 : ℚ)/8, 25000),
   (TickOutcome.ok procResp, (7 : ℚ)/8, 27500), (TickOutcome.ok procResp, (7 : ℚ)/8, 30000),
   (TickOutcome.ok procResp, (7 : ℚ)/8, 32500)]

/-- A sample completed-evaluation payload. -/
def sampleResult : EvalResult :=
  { cv_match_rate := 82/100, cv_feedback := "Good fit", project_score := 7,
    project_feedback := "Solid work", overall_summary := "Strong candidate" }

/-- A `completed` poll body carrying the sample payload. -/
def compResp : ResultResponse :=
  { id := "job-1", status := "completed", result := some sampleResult, error := none }

/-- A `completed` poll body with the `result` field absent. -/
def bareCompResp : ResultResponse :=
  { id := "job-1", status := "completed", result := none, error := none }

/-- A `failed` poll body carrying the server message of scenario D. -/
def failResp : ResultResponse :=
  { id := "job-1", status := "failed", result := none, error := some "bad input" }

/-- The first three ticks of scenario A: three `processing` polls. -/
def scenarioAStart : List (TickOutcome × ℚ × Nat) :=
  [(TickOutcome.ok procResp, 1/2, 2500), (TickOutcome.ok procResp, 1/2, 5000),
   (TickOutcome.ok procResp, 1/2, 7500)]

/-- The body text of a JSON object whose `error` field is the string
`404`. -/
def errBody : String := "\x7b\x22error\x22:\x22404\x22\x7d"

/-- `JSON.parse` evaluated at the one body text the counterexample uses:
`JSON.parse` of `errBody` yields exactly the object with the string field
`error = "404"`; every other input is mapped to a parse failure. -/
def parseStub : String → Option Json := fun s =>
  if s = errBody then some (Json.obj [("error", Json.str "404")]) else none

/-- A 500 response whose body carries the error message `404`. -/
def collidingResp : HttpResponse :=
  { status := 500, statusText := "Internal Server Error", body := errBody }

/-- A plain 404 response with an empty body. -/
def notFoundResp : HttpResponse :=
  { status := 404, statusText := "Not Found", body := "" }

/-- Once the interval has been cleared, no later tick changes the
state. -/
theorem runPoll_inactive (st : PollState) (ticks : List (TickOutcome × ℚ × Nat))
    (h : st.timerActive = false) : runPoll st ticks = st := by
  induction ticks with
  | nil => rfl
  | cons t ts ih => simp [runPoll, h, ih]

/-- The synthetic progress accumulator never exceeds 95, whichever branch
a tick takes. -/
theorem pollTick_progressValue_le (st : PollState) (outcome : TickOutcome) (rand : ℚ)
    (elapsed : Nat) (h : st.progressValue ≤ 95) :
    (pollTick st outcome rand elapsed).progressValue ≤ 95 := by
  have h85 : min (st.progressValue + rand * 5) 85 ≤ (95 : ℚ) :=
    le_trans (min_le_right _ _) (by norm_num)
  have h95 : min (st.progressValue + rand * 8) 95 ≤ (95 : ℚ) := min_le_right _ _
  unfold pollTick
  rcases outcome with res | msg
  · by_cases hc : res.status = "completed" <;>
      by_cases hf : res.status = "failed" <;>
      by_cases ht : maxWait < elapsed <;>
      simp [hc, hf, ht, h, h95]
  · by_cases hm : msg = "404" <;>
      by_cases ht : maxWait < elapsed <;>
      simp [hm, ht, h, h85]

/-- C4: On every poll tick, whatever the tick's outcome was classified
as, if the elapsed time since the recorded start exceeds 90 seconds, the
timeout message is recorded and the interval is cleared. -/
theorem tick_timeout_overrides (st : PollState) (outcome : TickOutcome) (rand : ℚ)
    (elapsed : Nat) (h : maxWait < elapsed) :
    (pollTick st outcome rand elapsed).error = timeoutMessage ∧
    (pollTick st outcome rand elapsed).timerActive = false := by
  unfold pollTick
  simp [h]

/-- Witness for tick_timeout_overrides: a late `processing` tick at 92.5
seconds records the timeout and stops the loop. -/
theorem tick_timeout_overrides_witness :
    (pollTick startPollState (TickOutcome.ok procResp) (1/2) 92500).error = timeoutMessage ∧
    (pollTick startPollState (TickOutcome.ok procResp) (1/2) 92500).timerActive = false :=
  tick_timeout_overrides startPollState (TickOutcome.ok procResp) (1/2) 92500 (by decide)

/-- C5: A tick whose decoded body has status `completed` sets the status
to completed, attaches exactly the server's result payload, forces
progress to 100, clears the interval, and no later tick changes the
state. -/
theorem tick_completed (st : PollState) (res : ResultResponse) (rand : ℚ) (elapsed : Nat)
    (rest : List (TickOutcome × ℚ × Nat)) (h : res.status = "completed") :
    (pollTick st (TickOutcome.ok res) rand elapsed).status = "completed" ∧
    (pollTick st (TickOutcome.ok res) rand elapsed).result = res.result ∧
    (pollTick st (TickOutcome.ok res) rand elapsed).progress = 100 ∧
    (pollTick st (TickOutcome.ok res) rand elapsed).timerActive = false ∧
    runPoll (pollTick st (TickOutcome.ok res) rand elapsed) rest =
      pollTick st (TickOutcome.ok res) rand elapsed := by
  have hti : (pollTick st (TickOutcome.ok res) rand elapsed).timerActive = false := by
    unfold pollTick
    by_cases hc : maxWait < elapsed <;> simp [h, hc]
  refine ⟨?_, ?_, ?_, hti, runPoll_inactive _ rest hti⟩ <;>
    · unfold pollTick
      by_cases hc : maxWait < elapsed <;> simp [h, hc]

/-- Witness for tick_completed: scenario A — after three `processing`
polls, the fourth poll returns `completed` with the sample payload. -/
theorem tick_completed_witness :
    (pollTick (runPoll startPollState scenarioAStart) (TickOutcome.ok compResp)
        (1/2) 10000).status = "completed" ∧
    (pollTick (runPoll startPollState scenarioAStart) (TickOutcome.ok compResp)
        (1/2) 10000).result = compResp.result ∧
    (pollTick (runPoll startPollState scenarioAStart) (TickOutcome.ok compResp)
        (1/2) 10000).progress = 100 ∧
    (pollTick (runPoll startPollState scenarioAStart) (TickOutcome.ok compResp)
        (1/2) 10000).timerActive = false ∧
    runPoll (pollTick (runPoll startPollState scenarioAStart) (TickOutcome.ok compResp)
        (1/2) 10000) [] =
      pollTick (runPoll startPollState scenarioAStart) (TickOutcome.ok compResp) (1/2) 10000 :=
  tick_completed (runPoll startPollState scenarioAStart) compResp (1/2) 10000 [] rfl

/-- C6: Inside the timeout window, a tick whose decoded body has status
`failed` records the server's error message when a non-empty one is
present and the default message otherwise, and clears the interval so
that no later tick runs. -/
theorem tick_failed (st : PollState) (res : ResultResponse) (rand : ℚ) (elapsed : Nat)
    (rest : List (TickOutcome × ℚ × Nat)) (h : res.status = "failed")
    (he : elapsed ≤ maxWait) :
    (pollTick st (TickOutcome.ok res) rand elapsed).status = "failed" ∧
    (pollTick st (TickOutcome.ok res) rand elapsed).error = jsOr res.error defaultFailMessage ∧
    (pollTick st (TickOutcome.ok res) rand elapsed).timerActive = false ∧
    (∀ m, res.error = some m → m ≠ "" →
      (pollTick st (TickOutcome.ok res) rand elapsed).error = m) ∧
    (res.error = none →
      (pollTick st (TickOutcome.ok res) rand elapsed).error = defaultFailMessage) ∧
    runPoll (pollTick st (TickOutcome.ok res) rand elapsed) rest =
      pollTick st (TickOutcome.ok res) rand elapsed := by
  have hnc : ¬ maxWait < elapsed := Nat.not_lt.mpr he
  have herr : (pollTick st (TickOutcome.ok res) rand elapsed).error =
      jsOr res.error defaultFailMessage := by
    unfold pollTick
    simp [h, hnc]
  have hti : (pollTick st (TickOutcome.ok res) rand elapsed).timerActive = false := by
    unfold pollTick
    simp [h, hnc]
  refine ⟨?_, herr, hti, ?_, ?_, runPoll_inactive _ rest hti⟩
  · unfold pollTick
    simp [h, hnc]
  · intro m hm hme
    rw [herr, hm]
    simp [jsOr, hme]
  · intro hm
    rw [herr, hm]
    rfl

/-- Witness for tick_failed: scenario D — a `failed` poll carrying the
message `bad input` on the first tick. -/
theorem tick_failed_witness :
    (pollTick startPollState (TickOutcome.ok failResp) (1/2) 2500).status = "failed" ∧
    (pollTick startPollState (TickOutcome.ok failResp) (1/2) 2500).error =
      jsOr failResp.error defaultFailMessage ∧
    (pollTick startPollState (TickOutcome.ok failResp) (1/2) 2500).timerActive = false ∧
    (∀ m, failResp.error = some m → m ≠ "" →
      (pollTick startPollState (TickOutcome.ok failResp) (1/2) 2500).error = m) ∧
    (failResp.error = none →
      (pollTick startPollState (TickOutcome.ok failResp) (1/2) 2500).error =
        defaultFailMessage) ∧
    runPoll (pollTick startPollState (TickOutcome.ok failResp) (1/2) 2500) [] =
      pollTick startPollState (TickOutcome.ok failResp) (1/2) 2500 :=
  tick_failed startPollState failResp (1/2) 2500 [] rfl (by decide)

/-- C7: Inside the timeout window, a tick whose decoded body is `queued`
or `processing` keeps the error and the timer as they were, updates the
status to the body's, and moves progress to `min (prev + rand * 8) 95`,
which lies between the previous progress and `min (prev + 8) 95`. -/
theorem tick_inProgress (st : PollState) (res : ResultResponse) (rand : ℚ) (elapsed : Nat)
    (h : res.status = "queued" ∨ res.status = "processing")
    (hr0 : 0 ≤ rand) (hr1 : rand < 1)
    (hpv : st.progress = st.progressValue) (hub : st.progressValue ≤ 95)
    (he : elapsed ≤ maxWait) :
    (pollTick st (TickOutcome.ok res) rand elapsed).status = res.status ∧
    (pollTick st (TickOutcome.ok res) rand elapsed).error = st.error ∧
    (pollTick st (TickOutcome.ok res) rand elapsed).timerActive = st.timerActive ∧
    (pollTick st (TickOutcome.ok res) rand elapsed).progress =
      min (st.progress + rand * 8) 95 ∧
    st.progress ≤ (pollTick st (TickOutcome.ok res) rand elapsed).progress ∧
    (pollTick st (TickOutcome.ok res) rand elapsed).progress ≤ min (st.progress + 8) 95 := by
  have hnc : ¬ maxWait < elapsed := Nat.not_lt.mpr he
  have hs1 : ¬ res.status = "completed" := by rcases h with h | h <;> simp [h]
  have hs2 : ¬ res.status = "failed" := by rcases h with h | h <;> simp [h]
  have hprog : (pollTick st (TickOutcome.ok res) rand elapsed).progress =
      min (st.progress + rand * 8) 95 := by
    unfold pollTick
    simp [hs1, hs2, hnc, hpv]
  refine ⟨?_, ?_, ?_, hprog, ?_, ?_⟩
  · unfold pollTick
    simp [hs1, hs2, hnc]
  · unfold pollTick
    simp [hs1, hs2, hnc]
  · unfold pollTick
    simp [hs1, hs2, hnc]
  · rw [hprog]
    refine le_min (by linarith) (by linarith)
  · rw [hprog]
    exact min_le_min (by linarith) le_rfl

/-- Witness for tick_inProgress: the first `processing` tick with a
random draw of one half. -/
theorem tick_inProgress_witness :
    (pollTick startPollState (TickOutcome.ok procResp) (1/2) 2500).status =
      procResp.status ∧
    (pollTick startPollState (TickOutcome.ok procResp) (1/2) 2500).error =
      startPollState.error ∧
    (pollTick startPollState (TickOutcome.ok procResp) (1/2) 2500).timerActive =
      startPollState.timerActive ∧
    (pollTick startPollState (TickOutcome.ok procResp) (1/2) 2500).progress =
      min (startPollState.progress + (1/2) * 8) 95 ∧
    startPollState.progress ≤
      (pollTick startPollState (TickOutcome.ok procResp) (1/2) 2500).progress ∧
    (pollTick startPollState (TickOutcome.ok procResp) (1/2) 2500).progress ≤
      min (startPollState.progress + 8) 95 :=
  tick_inProgress startPollState procResp (1/2) 2500 (Or.inr rfl)
    (by norm_num) (by norm_num) rfl (by norm_num [startPollState]) (by decide)

/-- C10: Inside the timeout window, a `completed` tick whose body carries
no result field still terminates as a success: status completed, progress
forced to 100, interval cleared, an absent result attached, and the
displayed error unchanged. -/
theorem tick_completed_no_result (st : PollState) (res : ResultResponse) (rand : ℚ)
    (elapsed : Nat) (h : res.status = "completed") (hres : res.result = none)
    (he : elapsed ≤ maxWait) :
    (pollTick st (TickOutcome.ok res) rand elapsed).status = "completed" ∧
    (pollTick st (TickOutcome.ok res) rand elapsed).progress = 100 ∧
    (pollTick st (TickOutcome.ok res) rand elapsed).timerActive = false ∧
    (pollTick st (TickOutcome.ok res) rand elapsed).result = none ∧
    (pollTick st (TickOutcome.ok res) rand elapsed).error = st.error := by
  have hnc : ¬ maxWait < elapsed := Nat.not_lt.mpr he
  unfold pollTick
  simp [h, hres, hnc]

/-- Witness for tick_completed_no_result: a `completed` body with the
result field absent on the first tick. -/
theorem tick_completed_no_result_witness :
    (pollTick startPollState (TickOutcome.ok bareCompResp) (1/2) 2500).status =
      "completed" ∧
    (pollTick startPollState (TickOutcome.ok bareCompResp) (1/2) 2500).progress = 100 ∧
    (pollTick startPollState (TickOutcome.ok bareCompResp) (1/2) 2500).timerActive =
      false ∧
    (pollTick startPollState (TickOutcome.ok bareCompResp) (1/2) 2500).result = none ∧
    (pollTick startPollState (TickOutcome.ok bareCompResp) (1/2) 2500).error =
      startPollState.error :=
  tick_completed_no_result startPollState bareCompResp (1/2) 2500 rfl rfl (by decide)

/-- C1 amended: a 404-classified tick inside the timeout window never
terminates the loop, never surfaces an error, and sets progress to
`min (prev + rand * 5) 85`.  This lies between the previous progress and
`min (prev + 5) 85` whenever the previous progress is at most 85, but it
strictly decreases to 85 when the previous progress exceeds 85. -/
theorem tick_notFound (st : PollState) (rand : ℚ) (elapsed : Nat)
    (hr0 : 0 ≤ rand) (hr1 : rand < 1)
    (hpv : st.progress = st.progressValue) (he : elapsed ≤ maxWait) :
    (pollTick st (TickOutcome.err "404") rand elapsed).status = st.status ∧
    (pollTick st (TickOutcome.err "404") rand elapsed).error = st.error ∧
    (pollTick st (TickOutcome.err "404") rand elapsed).result = st.result ∧
    (pollTick st (TickOutcome.err "404") rand elapsed).timerActive = st.timerActive ∧
    (pollTick st (TickOutcome.err "404") rand elapsed).progress =
      min (st.progress + rand * 5) 85 ∧
    (st.progress ≤ 85 →
      st.progress ≤ (pollTick st (TickOutcome.err "404") rand elapsed).progress ∧
      (pollTick st (TickOutcome.err "404") rand elapsed).progress ≤
        min (st.progress + 5) 85) ∧
    (85 < st.progress →
      (pollTick st (TickOutcome.err "404") rand elapsed).progress < st.progress) := by
  have hnc : ¬ maxWait < elapsed := Nat.not_lt.mpr he
  have hprog : (pollTick st (TickOutcome.err "404") rand elapsed).progress =
      min (st.progress + rand * 5) 85 := by
    unfold pollTick
    simp [hnc, hpv]
  refine ⟨?_, ?_, ?_, ?_, hprog, ?_, ?_⟩
  · unfold pollTick
    simp [hnc]
  · unfold pollTick
    simp [hnc]
  · unfold pollTick
    simp [hnc]
  · unfold pollTick
    simp [hnc]
  · intro hle
    rw [hprog]
    exact ⟨le_min (by linarith) hle, min_le_min (by linarith) le_rfl⟩
  · intro hgt
    rw [hprog]
    exact lt_of_le_of_lt (min_le_right _ _) hgt

/-- Witness for tick_notFound: a 404 on the first tick with a random draw
of one half. -/
theorem tick_notFound_witness :
    (pollTick startPollState (TickOutcome.err "404") (1/2) 2500).status =
      startPollState.status ∧
    (pollTick startPollState (TickOutcome.err "404") (1/2) 2500).error =
      startPollState.error ∧
    (pollTick startPollState (TickOutcome.err "404") (1/2) 2500).result =
      startPollState.result ∧
    (pollTick startPollState (TickOutcome.err "404") (1/2) 2500).timerActive =
      startPollState.timerActive ∧
    (pollTick startPollState (TickOutcome.err "404") (1/2) 2500).progress =
      min (startPollState.progress + (1/2) * 5) 85 ∧
    (startPollState.progress ≤ 85 →
      startPollState.progress ≤
        (pollTick startPollState (TickOutcome.err "404") (1/2) 2500).progress ∧
      (pollTick startPollState (TickOutcome.err "404") (1/2) 2500).progress ≤
        min (startPollState.progress + 5) 85) ∧
    (85 < startPollState.progress →
      (pollTick startPollState (TickOutcome.err "404") (1/2) 2500).progress <
        startPollState.progress) :=
  tick_notFound startPollState (1/2) 2500 (by norm_num) (by norm_num) rfl (by decide)

/-- C1 counterexample: after thirteen in-progress ticks the progress is
91 and the loop is still live; the next tick throws 404 inside the
timeout window and progress drops to 85.  It decreases, falling outside
the claimed interval from the previous progress to
`min (previous + 5) 85`, so progress is not monotonically non-decreasing
over the polling run. -/
theorem notFound_progress_decreases :
    (runPoll startPollState c1Trace).progress = 91 ∧
    (runPoll startPollState c1Trace).timerActive = true ∧
    (pollTick (runPoll startPollState c1Trace) (TickOutcome.err "404")
      (2/5) 35000).progress = 85 ∧
    ¬ ((runPoll startPollState c1Trace).progress ≤
        (pollTick (runPoll startPollState c1Trace) (TickOutcome.err "404")
          (2/5) 35000).progress) := by
  have step : ∀ (s0 : String) (p : ℚ) (e : Nat), p + 7 ≤ 95 → ¬ maxWait < e →
      pollTick ⟨s0, none, "", p, p, true⟩ (TickOutcome.ok procResp) ((7 : ℚ)/8) e =
        ⟨"processing", none, "", p + 7, p + 7, true⟩ := by
    intro s0 p e hp he
    have harith : p + (7 : ℚ)/8 * 8 = p + 7 := by norm_num
    have hmin : min (p + (7 : ℚ)/8 * 8) 95 = p + 7 := by
      rw [harith]
      exact min_eq_left hp
    unfold pollTick
    simp [procResp, he, hmin, hp]
  have s1 := step "queued" 0 2500 (by norm_num) (by norm_num [maxWait])
  have s2 := step "processing" 7 5000 (by norm_num) (by norm_num [maxWait])
  have s3 := step "processing" 14 7500 (by norm_num) (by norm_num [maxWait])
  have s4 := step "processing" 21 10000 (by norm_num) (by norm_num [maxWait])
  have s5 := step "processing" 28 12500 (by norm_num) (by norm_num [maxWait])
  have s6 := step "processing" 35 15000 (by norm_num) (by norm_num [maxWait])
  have s7 := step "processing" 42 17500 (by norm_num) (by norm_num [maxWait])
  have s8 := step "processing" 49 20000 (by norm_num) (by norm_num [maxWait])
  have s9 := step "processing" 56 22500 (by norm_num) (by norm_num [maxWait])
  have s10 := step "processing" 63 25000 (by norm_num) (by norm_num [maxWait])
  have s11 := step "processing" 70 27500 (by norm_num) (by norm_num [maxWait])
  have s12 := step "processing" 77 30000 (by norm_num) (by norm_num [maxWait])
  have s13 := step "processing" 84 32500 (by norm_num) (by norm_num [maxWait])
  norm_num at s1 s2 s3 s4 s5 s6 s7 s8 s9 s10 s11 s12 s13
  have hrun : runPoll startPollState c1Trace = ⟨"processing", none, "", 91, 91, true⟩ := by
    norm_num [c1Trace, runPoll, startPollState,
      s1, s2, s3, s4, s5, s6, s7, s8, s9, s10, s11, s12, s13]
  have h404 : pollTick (⟨"processing", none, "", 91, 91, true⟩ : PollState)
      (TickOutcome.err "404") (2/5) 35000 = ⟨"processing", none, "", 85, 85, true⟩ := by
    unfold pollTick
    norm_num [maxWait, min_def]
  rw [hrun, h404]
  norm_num

/-- C2 counterexample: clicking Start Evaluation twice, each time with a
successful `POST /evaluate`, leaves two interval timers scheduled at the
same time — the second call never cancels the first loop. -/
theorem two_timers_reachable :
    (handleEvaluate (handleEvaluate initialAppState
        (Except.ok { id := "job-1", status := "queued" }))
        (Except.ok { id := "job-2", status := "queued" })).activeTimers = 2 := by
  rfl

/-- C2 amended: starting a new evaluation does not cancel a prior polling
loop: every successful evaluate resets the shared state and schedules one
more interval on top of however many are already running; only a loop's
own terminal tick clears its timer, so two concurrently scheduled timers
are reachable. -/
theorem handleEvaluate_adds_timer (s : AppState) (r : EvaluateResponse) :
    (handleEvaluate s (Except.ok r)).activeTimers = s.activeTimers + 1 ∧
    (handleEvaluate s (Except.ok r)).status = "queued" ∧
    (handleEvaluate s (Except.ok r)).error = "" ∧
    (handleEvaluate s (Except.ok r)).result = none ∧
    (handleEvaluate s (Except.ok r)).progress = 0 :=
  ⟨rfl, rfl, rfl, rfl, rfl⟩

/-- C3 counterexample: with both files selected, a request failure during
`handleUpload` escapes the handler as an uncaught exception instead of
being converted to the user-visible error string. -/
theorem upload_failure_escapes :
    handleUpload initialAppState true true (Except.error "Failed to fetch") =
      Except.error "Failed to fetch" := by
  rfl

/-- C3 amended: `handleEvaluate` catches any thrown request error and
converts it to the user-visible error string, and a poll tick catches any
non-404 request error likewise, terminating its loop; `handleUpload`
handles the missing-file validation locally without a network call, but a
request failure inside it propagates uncaught out of the action. -/
theorem action_error_conversion (s : AppState) (st : PollState) (m : String) (rand : ℚ)
    (elapsed : Nat) (resp : Except String UploadResponse)
    (hm : ¬ m = "404") (he : elapsed ≤ maxWait) :
    (handleEvaluate s (Except.error m)).error = m ∧
    (pollTick st (TickOutcome.err m) rand elapsed).error = m ∧
    (pollTick st (TickOutcome.err m) rand elapsed).timerActive = false ∧
    handleUpload s false true resp =
      Except.ok { s with error := "Select both CV and Project files" } ∧
    handleUpload s true true (Except.error m) = Except.error m := by
  have hnc : ¬ maxWait < elapsed := Nat.not_lt.mpr he
  refine ⟨rfl, ?_, ?_, rfl, rfl⟩
  · unfold pollTick
    simp [hm, hnc]
  · unfold pollTick
    simp [hm, hnc]

/-- Witness for action_error_conversion at a concrete non-404 message and
an early tick. -/
theorem action_error_conversion_witness :
    (handleEvaluate initialAppState (Except.error "boom")).error = "boom" ∧
    (pollTick startPollState (TickOutcome.err "boom") (1/2) 2500).error = "boom" ∧
    (pollTick startPollState (TickOutcome.err "boom") (1/2) 2500).timerActive = false ∧
    handleUpload initialAppState false true
        (Except.ok { cv_file_id := "cv-1", project_file_id := "pr-1" }) =
      Except.ok { initialAppState with error := "Select both CV and Project files" } ∧
    handleUpload initialAppState true true (Except.error "boom") =
      Except.error "boom" :=
  action_error_conversion initialAppState startPollState "boom" (1/2) 2500
    (Except.ok { cv_file_id := "cv-1", project_file_id := "pr-1" })
    (by decide) (by decide)

/-- C8 amended: `fetchJSON` fails with the string 404 whenever the status
is exactly 404; any other non-successful status fails with the parsed
body's error message, falling back to the status text and then to
`Request failed`; a successful status returns the defensively parsed
body, where an empty or unparsable body yields the empty object and the
parse step never throws.  The not-found condition is however not
exclusive to status 404: a non-404 failure whose body carries the error
message 404 produces the same condition. -/
theorem fetchJSON_cases (parse : String → Option Json) (r : HttpResponse) :
    (r.status = 404 → fetchJSON parse r = Except.error "404") ∧
    (¬ r.status = 404 → r.ok = false →
      fetchJSON parse r = Except.error
        (jsOr (tryParseBody parse r.body).errField (jsOrS r.statusText "Request failed"))) ∧
    (¬ r.status = 404 → r.ok = true →
      fetchJSON parse r = Except.ok (tryParseBody parse r.body)) ∧
    (r.body = "" → tryParseBody parse r.body = Json.obj []) ∧
    (parse r.body = none → tryParseBody parse r.body = Json.obj []) := by
  refine ⟨?_, ?_, ?_, ?_, ?_⟩
  · intro h
    unfold fetchJSON
    simp [h]
  · intro h hok
    unfold fetchJSON
    simp [h, hok]
  · intro h hok
    unfold fetchJSON
    simp [h, hok]
  · intro h
    unfold tryParseBody
    simp [h]
  · intro h
    unfold tryParseBody
    by_cases hb : r.body = "" <;> simp [hb, h]

/-- Witness for fetchJSON_cases: a genuine 404 with an empty body raises
the distinguished condition. -/
theorem fetchJSON_cases_witness :
    fetchJSON parseStub notFoundResp = Except.error "404" :=
  (fetchJSON_cases parseStub notFoundResp).1 rfl

/-- C8 counterexample: a 500 response whose JSON body carries the error
message 404 makes `fetchJSON` fail with the very condition the polling
loop treats as the distinguished retryable not-found signal, refuting the
only-if direction of the claim. -/
theorem notFound_condition_not_only_404 :
    fetchJSON parseStub collidingResp = Except.error "404" ∧
    collidingResp.status ≠ 404 :=
  ⟨rfl, by decide⟩

/-- C9: the login page's copy of `fetchJSON` has no 404 special case: a
404 response fails with the generic condition built from the parsed
body's error message or the status text; it is treated identically to any
other non-successful response with the same body and status text; and the
evaluation page's copy maps the same response to the distinguished 404
condition instead. -/
theorem loginFetchJSON_no_404_case (parse : String → Option Json) (r : HttpResponse)
    (h : r.status = 404) :
    loginFetchJSON parse r = Except.error
      (jsOr (tryParseBody parse r.body).errField (jsOrS r.statusText "Request failed")) ∧
    (∀ r2 : HttpResponse, r2.ok = false → r2.body = r.body → r2.statusText = r.statusText →
      loginFetchJSON parse r2 = loginFetchJSON parse r) ∧
    fetchJSON parse r = Except.error "404" := by
  have hok : r.ok = false := by
    unfold HttpResponse.ok
    rw [h]
    rfl
  refine ⟨?_, ?_, ?_⟩
  · unfold loginFetchJSON
    simp [hok]
  · intro r2 hok2 hb hs
    unfold loginFetchJSON
    simp [hok, hok2, hb, hs]
  · unfold fetchJSON
    simp [h]

/-- Witness for loginFetchJSON_no_404_case at a plain 404 response with
an empty body: the login copy reports the status text while the
evaluation copy reports the distinguished 404 condition. -/
theorem loginFetchJSON_no_404_case_witness :
    loginFetchJSON parseStub notFoundResp = Except.error
      (jsOr (tryParseBody parseStub notFoundResp.body).errField
        (jsOrS notFoundResp.statusText "Request failed")) ∧
    (∀ r2 : HttpResponse, r2.ok = false → r2.body = notFoundResp.body →
      r2.statusText = notFoundResp.statusText →
      loginFetchJSON parseStub r2 = loginFetchJSON parseStub notFoundResp) ∧
    fetchJSON parseStub notFoundResp = Except.error "404" :=
  loginFetchJSON_no_404_case parseStub notFoundResp rfl
